import Mathlib

/-!
Verification of the terminalgpt request-windowing, streaming-reader and
history-store logic, shallowly embedded from the Go sources
(`gpt/gpt.go`, `helpers/helpers.go`, `config/config.go`, `azure/azure.go`).

External collaborators are modelled as explicit parameters:
* the tiktoken library is a `Tiktoken` value mapping a model name to an
  optional encoding (a pure tokenization function);
* file I/O for the history store is a `HistFile` value (absent file,
  a single valid JSON document holding the entry list, or a corrupt file);
* the JSON event decoder of the stream reader is a parameter
  `dec : String → Except String config.Event`;
* the HTTP layer of `GenerateCompletion` is a parameter `net`.
Everything else is translated statement by statement from the Go code.
-/

/-- Model of Go's `strings.HasPrefix`: character-list prefix test (all
markers compared here are ASCII, so bytes and characters agree). -/
def hasPre (s pre : String) : Bool :=
  pre.data.isPrefixOf s.data

/-- Model of Go's `strings.TrimSpace`: drop whitespace from both ends. -/
def trimSpace (s : String) : String :=
  ⟨((s.data.dropWhile Char.isWhitespace).reverse.dropWhile Char.isWhitespace).reverse⟩

/-- Model of Go's byte slicing `s[n:]` on ASCII-prefixed lines:
drop the first `n` characters. -/
def strDrop (s : String) (n : Nat) : String :=
  ⟨s.data.drop n⟩

instance {α β : Type} [DecidableEq α] [DecidableEq β] : DecidableEq (Except α β) :=
  fun a b =>
    match a, b with
    | .ok x, .ok y => if h : x = y then .isTrue (by rw [h]) else .isFalse (by simp [h])
    | .error x, .error y => if h : x = y then .isTrue (by rw [h]) else .isFalse (by simp [h])
    | .ok _, .error _ => .isFalse (by simp)
    | .error _, .ok _ => .isFalse (by simp)

namespace config

/-- Embedding of `config.Message` from `config/config.go`: role and content of one chat
message.  `gpt.go` represents messages as `map[string]string` with exactly
the keys `"role"` and `"content"`, which carries the same data. -/
structure Message where
  role : String
  content : String
deriving DecidableEq, Repr

/-- One choice of a streamed `config.Event` (`config/config.go`): an index,
a partial content delta and an optional finish reason. -/
structure Choice where
  index : Int
  delta : Message
  finishReason : String
deriving DecidableEq, Repr

/-- Embedding of `config.Event` from `config/config.go`: one decoded unit of the
streamed response. -/
structure Event where
  id : String
  object : String
  created : Int
  model : String
  choices : List Choice
deriving DecidableEq, Repr

/-- The fields of `config.Config` that the request builder reads.  The
sampling parameters (temperature, penalties, top-p) are only serialized
into the outgoing payload and never branched on, so they are omitted. -/
structure Config where
  modelName : String
  maxTotalTokens : Int
  maxTokens : Int
  systemMessage : String
  history : Bool
deriving Repr

end config

/-- Model of the external tiktoken library: a map from model names to an
optional encoding, an encoding being a pure function from text to the
token list.  `EncodingForModel` fails (returns `none`) exactly on model
names with no known tokenization scheme. -/
structure Tiktoken where
  encodingForModel : String → Option (String → List String)

namespace gpt

/-- Embedding of `gpt.CountTokens` (`gpt/gpt.go` lines 191-198): looks up the encoding
for `modelName`; on failure it logs and returns `0` (it does NOT return an
error), otherwise the length of the encoded text. -/
def CountTokens (tk : Tiktoken) (text modelName : String) : Nat :=
  match tk.encodingForModel modelName with
  | none => 0
  | some enc => (enc text).length

/-- The history-trimming loop of `gpt.CreatePayload` (`gpt/gpt.go` lines
58-67).  `rev` is the stored history walked from most recent to oldest
(the Go loop runs `i` from `len(oldHistory)-1` down to `0`), `total` is
`totalRequestTokens`, `hist` the message list being built.  Each entry
whose tokens still fit is prepended to `hist`; the first entry that does
not fit stops the loop (`break`). -/
def trimLoop (tc : String → Nat) (b : Int) :
    List config.Message → Nat → List config.Message → List config.Message × Nat
  | [], total, hist => (hist, total)
  | m :: rest, total, hist =>
    if ((total + tc m.content : Nat) : Int) ≤ b then
      trimLoop tc b rest (total + tc m.content) (m :: hist)
    else (hist, total)

/-- The error message of the budget guard in `gpt.CreatePayload`. -/
def budgetErrMsg : String :=
  "system message and user message alone exceed the maximum allowed tokens for the request"

/-- Embedding of `gpt.CreatePayload` (`gpt/gpt.go` lines 32-89), at the level of the
message list it serializes.  `loadRes` is the outcome of `loadHistory()`
(the file read is modelled as a parameter); it is only consulted when
`cfg.history` is set, after the budget guard.  Returns the assembled
message list together with `totalRequestTokens`; the JSON serialization
of that list into the payload string is not modelled. -/
def CreatePayload (tk : Tiktoken) (cfg : config.Config)
    (loadRes : Except String (List config.Message)) (userMessage : String) :
    Except String (List config.Message × Nat) :=
  let history : List config.Message :=
    [⟨"system", cfg.systemMessage⟩, ⟨"user", userMessage⟩]
  let totalRequestTokens :=
    CountTokens tk userMessage cfg.modelName + CountTokens tk cfg.systemMessage cfg.modelName
  if ((totalRequestTokens : Nat) : Int) > cfg.maxTotalTokens - cfg.maxTokens then
    .error budgetErrMsg
  else if cfg.history then
    match loadRes with
    | .error e => .error e
    | .ok oldHistory =>
      .ok (trimLoop (fun s => CountTokens tk s cfg.modelName)
            (cfg.maxTotalTokens - cfg.maxTokens) oldHistory.reverse totalRequestTokens history)
  else
    .ok (history, totalRequestTokens)

/-- Total token count of a message list, each content measured by
`gpt.CountTokens` for the given model — the Token Counter measure used in
the budget invariant. -/
def messageTokens (tk : Tiktoken) (modelName : String) (msgs : List config.Message) : Nat :=
  (msgs.map (fun m => CountTokens tk m.content modelName)).sum

/-- Outcome of `gpt.HandleResponse`: a normal return (accumulated
assistant message and total response tokens), a returned error (read or
unmarshal failure), or a Go runtime panic (out-of-bounds index). -/
inductive HandleResult where
  | ok (assistantMsg : String) (totalResponseTokens : Nat)
  | fail (msg : String)
  | outOfRange (msg : String)
deriving DecidableEq, Repr

/-- The read loop of `gpt.HandleResponse` (`gpt/gpt.go` lines 99-131) over
the list of stream lines (each line without its trailing newline; the Go
code reads with `ReadString` and the trailing `"\n"` is absorbed by
`TrimSpace` / ignored by the prefix test).  A line starting with
`"data: "` has its payload taken from byte 6 on; a payload trimming to
`"[DONE]"` makes the loop `continue`; otherwise the payload is decoded
(`json.Unmarshal`, modelled by `dec`) — a decode error is returned —
and `event.Choices[0]` is read unconditionally, so an event with no
choices is a runtime index-out-of-range panic.  The delta content is
appended to the accumulated message and its token count added to the
tally; lines without the prefix are skipped. -/
def handleLines (tc : String → Nat) (dec : String → Except String config.Event) :
    List String → String → Nat → HandleResult
  | [], assistantMsg, total => .ok assistantMsg total
  | line :: rest, assistantMsg, total =>
    if hasPre line "data: " then
      let jsonData := strDrop line 6
      if trimSpace jsonData = "[DONE]" then
        handleLines tc dec rest assistantMsg total
      else
        match dec jsonData with
        | .error e => .fail e
        | .ok event =>
          match event.choices with
          | [] => .outOfRange "runtime error: index out of range [0] with length 0"
          | choice :: _ =>
            handleLines tc dec rest (assistantMsg ++ choice.delta.content)
              (total + tc choice.delta.content)
    else
      handleLines tc dec rest assistantMsg total

/-- A data line is safe for the unguarded `event.Choices[0]` access when
its payload either fails to decode (the loop returns the error first) or
decodes to an event with at least one choice. -/
def decodedChoicesNonempty (dec : String → Except String config.Event) (line : String) : Bool :=
  match dec (strDrop line 6) with
  | .ok event => !event.choices.isEmpty
  | .error _ => true

/-- Embedding of `gpt.HandleResponse` (`gpt/gpt.go` lines 90-132): runs the read loop
with empty accumulators, counting tokens with the configured model. -/
def HandleResponse (tk : Tiktoken) (cfg : config.Config)
    (dec : String → Except String config.Event) (lines : List String) : HandleResult :=
  handleLines (fun s => CountTokens tk s cfg.modelName) dec lines "" 0

/-- Embedding of `gpt.GenerateCompletion` (`gpt/gpt.go` lines 136-169): builds the
payload, and only if that succeeds performs the HTTP round trip and
stream handling, here abstracted as `net` applied to the payload. -/
def GenerateCompletion (tk : Tiktoken) (cfg : config.Config)
    (loadRes : Except String (List config.Message)) (userMessage : String)
    (net : List config.Message × Nat → Except String (String × Nat)) :
    Except String String :=
  match CreatePayload tk cfg loadRes userMessage with
  | .error e => .error e
  | .ok payload =>
    match net payload with
    | .error e => .error ("Failed to handle response: " ++ e)
    | .ok (response, _) => .ok response

end gpt

namespace helpers

/-- Embedding of `helpers.HistoryEntry` (`helpers/helpers.go`): role, content and the
token count computed at append time. -/
structure HistoryEntry where
  role : String
  content : String
  tokenCount : Nat
deriving DecidableEq, Repr

/-- The on-disk history file: absent, a single valid JSON document
holding the entry list, or unparseable contents. -/
inductive HistFile where
  | absent
  | valid (entries : List HistoryEntry)
  | corrupt
deriving DecidableEq, Repr

/-- Embedding of `helpers.CountTokens` (`helpers/helpers.go` lines 99-105): despite
taking `modelName`, it always requests the encoding for `"gpt-4"`; it
fails only when that fixed encoding is unavailable. -/
def CountTokens (tk : Tiktoken) (text modelName : String) : Except String Nat :=
  match tk.encodingForModel "gpt-4" with
  | none => .error "EncodingForModel: no encoding for model"
  | some enc => .ok (enc text).length

/-- Embedding of `helpers.LoadHistory` (`helpers/helpers.go` lines 80-97): a missing
file yields the empty sequence (not an error); a file that exists is
decoded as one JSON array, a decode failure is an error. -/
def LoadHistory : HistFile → Except String (List HistoryEntry)
  | .absent => .ok []
  | .valid entries => .ok entries
  | .corrupt => .error "Failed to decode history"

/-- The token count `helpers.AppendHistory` stores on the entry:
`entry.TokenCount, _ = CountTokens(entry.Content, "gpt-4")` — the error
is discarded, leaving the zero value `0` when counting fails. -/
def appendTokenCount (tk : Tiktoken) (content : String) : Nat :=
  match CountTokens tk content "gpt-4" with
  | .ok n => n
  | .error _ => 0

/-- Embedding of `helpers.AppendHistory` (`helpers/helpers.go` lines 24-51): populates
the entry's token count, loads the whole history, appends the entry, and
rewrites the file as one JSON document (the Go code opens with
`O_TRUNC` and writes the marshalled full sequence, a full-file
overwrite — hence the result is `HistFile.valid` of the whole new list,
never a byte-wise append to the old contents). -/
def AppendHistory (tk : Tiktoken) (entry : HistoryEntry) (file : HistFile) :
    Except String HistFile :=
  let entry' : HistoryEntry :=
    { entry with tokenCount := appendTokenCount tk entry.content }
  match LoadHistory file with
  | .error e => .error e
  | .ok history => .ok (.valid (history ++ [entry']))

/-- Embedding of `helpers.ClearHistory` (`helpers/helpers.go` lines 53-59): `os.Remove`
on an absent file fails, and the error is wrapped and returned — clearing
a nonexistent history IS an error in this code. -/
def ClearHistory : HistFile → Except String HistFile
  | .absent => .error "Failed to clear history: remove: no such file or directory"
  | .valid _ => .ok .absent
  | .corrupt => .ok .absent

end helpers

/-- A concrete tiktoken instance used for witnesses: the encodings for
`"gpt-4"` and `"gpt-3.5-turbo"` tokenize character by character; every
other model name has no known scheme. -/
def demoTiktoken : Tiktoken :=
  ⟨fun m =>
    if m = "gpt-4" ∨ m = "gpt-3.5-turbo" then
      some (fun s => s.toList.map (fun c => String.mk [c]))
    else none⟩

/-- A concrete config for witnesses. -/
def demoConfig : config.Config :=
  { modelName := "gpt-4"
    maxTotalTokens := 100
    maxTokens := 10
    systemMessage := "s"
    history := true }

/-- A concrete stream-event decoder used for witnesses: `"e1"` and `"e2"`
decode to content deltas `"Hel"` and `"lo"`, `"efin"` to an empty delta
with finish reason `"stop"`, `"empty"` to an event whose choices array is
empty, and anything else is a decode error. -/
def demoDecode : String → Except String config.Event := fun s =>
  if s = "e1" then
    .ok ⟨"1", "chat.completion.chunk", 0, "gpt-4", [⟨0, ⟨"assistant", "Hel"⟩, ""⟩]⟩
  else if s = "e2" then
    .ok ⟨"2", "chat.completion.chunk", 0, "gpt-4", [⟨0, ⟨"assistant", "lo"⟩, ""⟩]⟩
  else if s = "efin" then
    .ok ⟨"3", "chat.completion.chunk", 0, "gpt-4", [⟨0, ⟨"assistant", ""⟩, "stop"⟩]⟩
  else if s = "empty" then
    .ok ⟨"4", "chat.completion.chunk", 0, "gpt-4", []⟩
  else .error "invalid character"

/-- A concrete config whose budget `maxTotalTokens - maxTokens` is `0`,
so any nonempty user message overruns it. -/
def overConfig : config.Config :=
  { modelName := "gpt-4"
    maxTotalTokens := 1
    maxTokens := 1
    systemMessage := "s"
    history := true }


/-! ## Theorems -/

namespace gpt

theorem trimLoop_spec (tc : String → Nat) (b : Int) :
    ∀ (rev : List config.Message) (total : Nat) (acc : List config.Message),
      ((total : Nat) : Int) ≤ b →
      ∃ sel : List config.Message,
        sel <:+ rev.reverse ∧
        (trimLoop tc b rev total acc).1 = sel ++ acc ∧
        (trimLoop tc b rev total acc).2 = total + (sel.map (fun m => tc m.content)).sum ∧
        (((trimLoop tc b rev total acc).2 : Nat) : Int) ≤ b := by
  intro rev
  induction rev with
  | nil =>
    intro total acc h
    exact ⟨[], List.nil_suffix, by simp [trimLoop], by simp [trimLoop],
      by simpa [trimLoop] using h⟩
  | cons m rest ih =>
    intro total acc h
    by_cases hc : ((total + tc m.content : Nat) : Int) ≤ b
    · obtain ⟨sel, hsuf, h1, h2, h3⟩ := ih (total + tc m.content) (m :: acc) hc
      obtain ⟨t, ht⟩ := hsuf
      refine ⟨sel ++ [m], ⟨t, ?_⟩, ?_, ?_, ?_⟩
      · rw [List.reverse_cons, ← List.append_assoc, ht]
      · rw [trimLoop, if_pos hc, h1]
        simp
      · rw [trimLoop, if_pos hc, h2]
        simp
        omega
      · rw [trimLoop, if_pos hc]
        exact h3
    · refine ⟨[], List.nil_suffix, ?_, ?_, ?_⟩
      · rw [trimLoop, if_neg hc]
        simp
      · rw [trimLoop, if_neg hc]
        simp
      · rw [trimLoop, if_neg hc]
        exact h

/-- Full specification of a successful `CreatePayload` run: the selected
history window is a contiguous suffix of the stored history (the suffix
side is the newest side, so older turns drop first), the assembled list
is that window followed by the system and user messages, and the returned
token total is the Token Counter measure of the whole list, within the
budget `maxTotalTokens - maxTokens`. -/
theorem createPayload_ok_spec (tk : Tiktoken) (cfg : config.Config)
    (old : List config.Message) (userMessage : String)
    (msgs : List config.Message) (total : Nat)
    (h : CreatePayload tk cfg (.ok old) userMessage = .ok (msgs, total)) :
    ∃ sel : List config.Message,
      sel <:+ old ∧
      msgs = sel ++ [⟨"system", cfg.systemMessage⟩, ⟨"user", userMessage⟩] ∧
      total = messageTokens tk cfg.modelName msgs ∧
      ((total : Nat) : Int) ≤ cfg.maxTotalTokens - cfg.maxTokens := by
  simp only [CreatePayload] at h
  by_cases hguard :
      ((CountTokens tk userMessage cfg.modelName +
        CountTokens tk cfg.systemMessage cfg.modelName : Nat) : Int) >
        cfg.maxTotalTokens - cfg.maxTokens
  · rw [if_pos hguard] at h
    exact absurd h (by simp)
  · rw [if_neg hguard] at h
    push_neg at hguard
    by_cases hh : cfg.history
    · rw [if_pos hh] at h
      obtain ⟨sel, hsuf, h1, h2, h3⟩ :=
        trimLoop_spec (fun s => CountTokens tk s cfg.modelName)
          (cfg.maxTotalTokens - cfg.maxTokens) old.reverse
          (CountTokens tk userMessage cfg.modelName +
            CountTokens tk cfg.systemMessage cfg.modelName)
          [⟨"system", cfg.systemMessage⟩, ⟨"user", userMessage⟩] hguard
      rw [List.reverse_reverse] at hsuf
      injection h with hX
      have e1 := congrArg Prod.fst hX
      have e2 := congrArg Prod.snd hX
      simp only [] at e1 e2
      have hm : msgs = sel ++ [⟨"system", cfg.systemMessage⟩, ⟨"user", userMessage⟩] := by
        rw [← e1, h1]
      have ht : total = messageTokens tk cfg.modelName msgs := by
        rw [← e2, h2, hm]
        simp [messageTokens]
        omega
      refine ⟨sel, hsuf, hm, ht, ?_⟩
      rw [← e2]
      exact h3
    · rw [if_neg hh] at h
      injection h with hX
      have e1 := congrArg Prod.fst hX
      have e2 := congrArg Prod.snd hX
      simp only [] at e1 e2
      refine ⟨[], List.nil_suffix, ?_, ?_, ?_⟩
      · rw [← e1]
        simp
      · rw [← e1, ← e2]
        simp [messageTokens]
        omega
      · rw [← e2]
        exact hguard

/-- C1: for every stored history, system message, user message and config,
the history window selected by CreatePayload's trimming loop is a
contiguous suffix of the stored history (the newest entries — older turns
drop off first), and the total token count of the sent messages (system +
selected history + new user message), measured by the Token Counter for
the configured model, never exceeds MaxTotalTokens - MaxTokens. -/
theorem createPayload_window_suffix_within_budget (tk : Tiktoken) (cfg : config.Config)
    (old : List config.Message) (userMessage : String)
    (msgs : List config.Message) (total : Nat)
    (h : CreatePayload tk cfg (.ok old) userMessage = .ok (msgs, total)) :
    ∃ sel : List config.Message,
      sel <:+ old ∧
      msgs = sel ++ [⟨"system", cfg.systemMessage⟩, ⟨"user", userMessage⟩] ∧
      ((messageTokens tk cfg.modelName msgs : Nat) : Int) ≤
        cfg.maxTotalTokens - cfg.maxTokens := by
  obtain ⟨sel, h1, h2, h3, h4⟩ := createPayload_ok_spec tk cfg old userMessage msgs total h
  exact ⟨sel, h1, h2, by rw [← h3]; exact h4⟩

/-- Witness for C1 at a concrete run that selects the whole stored history. -/
theorem createPayload_window_suffix_witness :
    ∃ sel : List config.Message,
      sel <:+ [⟨"user", "a"⟩, ⟨"assistant", "bb"⟩] ∧
      ([⟨"user", "a"⟩, ⟨"assistant", "bb"⟩, ⟨"system", "s"⟩, ⟨"user", "q"⟩] :
          List config.Message) =
        sel ++ [⟨"system", demoConfig.systemMessage⟩, ⟨"user", "q"⟩] ∧
      ((messageTokens demoTiktoken demoConfig.modelName
          [⟨"user", "a"⟩, ⟨"assistant", "bb"⟩, ⟨"system", "s"⟩, ⟨"user", "q"⟩] : Nat) : Int) ≤
        demoConfig.maxTotalTokens - demoConfig.maxTokens :=
  createPayload_window_suffix_within_budget demoTiktoken demoConfig
    [⟨"user", "a"⟩, ⟨"assistant", "bb"⟩] "q"
    [⟨"user", "a"⟩, ⟨"assistant", "bb"⟩, ⟨"system", "s"⟩, ⟨"user", "q"⟩] 5 (by decide)

/-- C2: when the system and user messages alone exceed the budget
`maxTotalTokens - maxTokens`, CreatePayload fails with the budget error
for EVERY outcome of the history load (`loadRes` arbitrary, so no history
inclusion is attempted) and GenerateCompletion fails the same way for
EVERY network layer `net` (so no network call can influence the result). -/
theorem createPayload_budget_guard_fails_fast (tk : Tiktoken) (cfg : config.Config)
    (loadRes : Except String (List config.Message)) (userMessage : String)
    (net : List config.Message × Nat → Except String (String × Nat))
    (h : cfg.maxTotalTokens - cfg.maxTokens <
        ((CountTokens tk userMessage cfg.modelName +
          CountTokens tk cfg.systemMessage cfg.modelName : Nat) : Int)) :
    CreatePayload tk cfg loadRes userMessage = .error budgetErrMsg ∧
    GenerateCompletion tk cfg loadRes userMessage net = .error budgetErrMsg := by
  have hp : CreatePayload tk cfg loadRes userMessage = .error budgetErrMsg := by
    simp only [CreatePayload]
    rw [if_pos h]
  refine ⟨hp, ?_⟩
  simp only [GenerateCompletion, hp]

/-- Witness for C2: a zero budget, a failing history load and a network
layer that would succeed — the budget error wins regardless. -/
theorem createPayload_budget_guard_witness :
    CreatePayload demoTiktoken overConfig (.error "io failure") "hi" = .error budgetErrMsg ∧
    GenerateCompletion demoTiktoken overConfig (.error "io failure") "hi"
      (fun _ => .ok ("reply", 0)) = .error budgetErrMsg :=
  createPayload_budget_guard_fails_fast demoTiktoken overConfig (.error "io failure") "hi"
    (fun _ => .ok ("reply", 0)) (by decide)

/-- C3 fails on the code: with history enabled and a nonempty stored
history, CreatePayload places the selected history BEFORE the system
message — the list is [selected history] ++ [system, user], not
[system] ++ [selected history] ++ [user] as claimed. -/
theorem createPayload_system_not_first :
    CreatePayload demoTiktoken demoConfig (.ok [⟨"user", "a"⟩]) "q" =
      .ok ([⟨"user", "a"⟩, ⟨"system", "s"⟩, ⟨"user", "q"⟩], 3) ∧
    ([⟨"user", "a"⟩, ⟨"system", "s"⟩, ⟨"user", "q"⟩] : List config.Message) ≠
      [⟨"system", "s"⟩, ⟨"user", "a"⟩, ⟨"user", "q"⟩] :=
  ⟨by decide, by decide⟩

/-- C3 amended: the message list assembled by CreatePayload is the
selected history (oldest-first) followed by the system message followed
by the new user message. -/
theorem createPayload_message_order (tk : Tiktoken) (cfg : config.Config)
    (old : List config.Message) (userMessage : String)
    (msgs : List config.Message) (total : Nat)
    (h : CreatePayload tk cfg (.ok old) userMessage = .ok (msgs, total)) :
    ∃ sel : List config.Message,
      sel <:+ old ∧
      msgs = sel ++ [⟨"system", cfg.systemMessage⟩, ⟨"user", userMessage⟩] := by
  obtain ⟨sel, h1, h2, _, _⟩ := createPayload_ok_spec tk cfg old userMessage msgs total h
  exact ⟨sel, h1, h2⟩

/-- Witness for the amended C3 at a concrete run. -/
theorem createPayload_message_order_witness :
    ∃ sel : List config.Message,
      sel <:+ [⟨"assistant", "xy"⟩] ∧
      ([⟨"assistant", "xy"⟩, ⟨"system", "s"⟩, ⟨"user", "hi"⟩] : List config.Message) =
        sel ++ [⟨"system", demoConfig.systemMessage⟩, ⟨"user", "hi"⟩] :=
  createPayload_message_order demoTiktoken demoConfig [⟨"assistant", "xy"⟩] "hi"
    [⟨"assistant", "xy"⟩, ⟨"system", "s"⟩, ⟨"user", "hi"⟩] 5 (by decide)

/-- C4 fails on the code: the `[DONE]` line does not terminate reading —
the loop merely `continue`s, so a data line AFTER the sentinel is still
decoded and accumulated (here yielding "Hel" instead of the empty reply a
terminating reader would produce). -/
theorem handleResponse_done_not_terminating :
    HandleResponse demoTiktoken demoConfig demoDecode ["data: [DONE]", "data: e1"] =
      .ok "Hel" 3 ∧
    HandleResponse demoTiktoken demoConfig demoDecode ["data: [DONE]", "data: e1"] ≠
      HandleResponse demoTiktoken demoConfig demoDecode ["data: [DONE]"] :=
  ⟨by decide, by decide⟩

/-- C4 amended: a line whose payload after the `"data: "` marker trims to
the sentinel `[DONE]` is never passed to the event decoder — the loop
skips it and continues with the remaining lines exactly as if the line
were not there (rather than terminating the stream at that point). -/
theorem handleLines_done_line_skipped (tc : String → Nat)
    (dec : String → Except String config.Event) (line : String) (rest : List String)
    (assistantMsg : String) (total : Nat)
    (h1 : hasPre line "data: " = true) (h2 : trimSpace (strDrop line 6) = "[DONE]") :
    handleLines tc dec (line :: rest) assistantMsg total =
      handleLines tc dec rest assistantMsg total := by
  simp only [handleLines]
  rw [if_pos h1, if_pos h2]

/-- Witness for the amended C4 at the literal sentinel line. -/
theorem handleLines_done_line_skipped_witness :
    handleLines (fun s => s.length) demoDecode ["data: [DONE]"] "" 0 =
      handleLines (fun s => s.length) demoDecode [] "" 0 :=
  handleLines_done_line_skipped (fun s => s.length) demoDecode "data: [DONE]" [] "" 0
    (by decide) (by decide)

/-- C5: on the synthetic stream of deltas "Hel" and "lo" followed by a
finish signal, HandleResponse accumulates "Hello" and tallies the sum of
the per-chunk token counts (3 + 2 + 0 = 5 with the character tokenizer);
interleaved lines without the `"data: "` marker change nothing — the
stream with them yields the same result as the stream without. -/
theorem handleResponse_hello_stream :
    HandleResponse demoTiktoken demoConfig demoDecode
      ["data: e1", ": keepalive", "event: x", "data: e2", "data: efin", "data: [DONE]"] =
      .ok "Hello" 5 ∧
    5 = CountTokens demoTiktoken "Hel" demoConfig.modelName +
        CountTokens demoTiktoken "lo" demoConfig.modelName +
        CountTokens demoTiktoken "" demoConfig.modelName ∧
    HandleResponse demoTiktoken demoConfig demoDecode
      ["data: e1", "data: e2", "data: efin", "data: [DONE]"] = .ok "Hello" 5 :=
  ⟨by decide, by decide, by decide⟩

/-- C10: `HandleResponse` reads `event.Choices[0]` unguarded.  First: the
loop never reaches the out-of-range panic provided every decoded data
line carries at least one choice (the precondition).  Second: the
precondition is essential — a single event decoding to an empty choices
array drives the loop into the index-out-of-range panic. -/
theorem handleLines_choices_indexing_unguarded :
    (∀ (tc : String → Nat) (dec : String → Except String config.Event)
        (lines : List String) (assistantMsg : String) (total : Nat),
      (∀ line ∈ lines, hasPre line "data: " = true →
        trimSpace (strDrop line 6) ≠ "[DONE]" →
        decodedChoicesNonempty dec line = true) →
      ∀ e, handleLines tc dec lines assistantMsg total ≠ .outOfRange e) ∧
    handleLines (fun s => s.length) demoDecode ["data: empty"] "" 0 =
      .outOfRange "runtime error: index out of range [0] with length 0" := by
  constructor
  · intro tc dec lines
    induction lines with
    | nil =>
      intro assistantMsg total _ e
      simp [handleLines]
    | cons line rest ih =>
      intro assistantMsg total h e
      simp only [handleLines]
      by_cases h1 : hasPre line "data: " = true
      · rw [if_pos h1]
        by_cases h2 : trimSpace (strDrop line 6) = "[DONE]"
        · rw [if_pos h2]
          exact ih assistantMsg total (fun l hl => h l (List.mem_cons_of_mem _ hl)) e
        · rw [if_neg h2]
          have hne := h line (List.mem_cons_self _ _) h1 h2
          unfold decodedChoicesNonempty at hne
          cases hdec : dec (strDrop line 6) with
          | error err => simp [hdec]
          | ok event =>
            rw [hdec] at hne
            simp only [Bool.not_eq_true'] at hne
            cases hch : event.choices with
            | nil =>
              rw [hch] at hne
              simp at hne
            | cons c cs =>
              simp only [hdec, hch]
              exact ih _ _ (fun l hl => h l (List.mem_cons_of_mem _ hl)) e
      · rw [if_neg h1]
        exact ih assistantMsg total (fun l hl => h l (List.mem_cons_of_mem _ hl)) e
  · decide

/-- Witness for C10: a stream whose only decoded event has one choice is
processed without reaching the panic branch. -/
theorem handleLines_choices_indexing_witness :
    handleLines (fun s => s.length) demoDecode ["data: e1"] "" 0 ≠
      .outOfRange "runtime error: index out of range [0] with length 0" :=
  handleLines_choices_indexing_unguarded.1 (fun s => s.length) demoDecode ["data: e1"] "" 0
    (by decide) "runtime error: index out of range [0] with length 0"

end gpt

/-- C6 fails on the code: `"not-a-model"` has no known tokenization
scheme, yet neither counter fails with an encoding-unavailable error —
`gpt.CountTokens` silently returns `0`, and `helpers.CountTokens`
ignores its model argument (it always uses the gpt-4 encoding) and
succeeds with the count `2`. -/
theorem countTokens_unknown_model_no_error :
    demoTiktoken.encodingForModel "not-a-model" = none ∧
    gpt.CountTokens demoTiktoken "hi" "not-a-model" = 0 ∧
    helpers.CountTokens demoTiktoken "hi" "not-a-model" = .ok 2 :=
  ⟨rfl, rfl, rfl⟩

/-- C6 amended: both token counters are deterministic (pure functions of
their arguments — equal calls give equal results), but neither fails on
an unknown model name: `gpt.CountTokens` returns `0` when the model has
no encoding, and `helpers.CountTokens` answers from the gpt-4 encoding
for every model name, failing only when that fixed encoding is itself
unavailable. -/
theorem countTokens_deterministic_error_behavior
    (tk : Tiktoken) (text modelName : String) (enc : String → List String) :
    (gpt.CountTokens tk text modelName = gpt.CountTokens tk text modelName ∧
      helpers.CountTokens tk text modelName = helpers.CountTokens tk text modelName) ∧
    (tk.encodingForModel modelName = none → gpt.CountTokens tk text modelName = 0) ∧
    (tk.encodingForModel "gpt-4" = some enc →
      helpers.CountTokens tk text modelName = .ok (enc text).length) ∧
    (tk.encodingForModel "gpt-4" = none →
      helpers.CountTokens tk text modelName = .error "EncodingForModel: no encoding for model") := by
  refine ⟨⟨rfl, rfl⟩, ?_, ?_, ?_⟩
  · intro h
    simp [gpt.CountTokens, h]
  · intro h
    simp [helpers.CountTokens, h]
  · intro h
    simp [helpers.CountTokens, h]

/-- Witness for the amended C6: the helpers counter succeeds on an
unknown model name because the gpt-4 encoding exists. -/
theorem countTokens_deterministic_witness :
    helpers.CountTokens demoTiktoken "hi" "not-a-model" =
      .ok ((fun s : String => s.toList.map (fun c => String.mk [c])) "hi").length :=
  (countTokens_deterministic_error_behavior demoTiktoken "hi" "not-a-model"
      (fun s : String => s.toList.map (fun c => String.mk [c]))).2.2.1 rfl

/-- C9: `helpers.CountTokens` gives the same answer for every model name —
the `modelName` parameter is dead, the gpt-4 encoding is always used, so
history and budget accounting in the helpers path is independent of the
configured model. -/
theorem countTokens_model_independent (tk : Tiktoken) (text m1 m2 : String) :
    helpers.CountTokens tk text m1 = helpers.CountTokens tk text m2 :=
  rfl

namespace helpers

/-- C7: appending an entry to a loadable history file and reloading
yields the prior sequence with the populated entry (token count computed
at append time from its content) as its last element; the file written is
the single JSON document holding the whole new sequence — a full-file
overwrite, not a byte-wise append. -/
theorem appendHistory_roundTrip (tk : Tiktoken) (file : HistFile)
    (entry : HistoryEntry) (prior : List HistoryEntry)
    (hload : LoadHistory file = .ok prior) :
    AppendHistory tk entry file =
      .ok (.valid (prior ++ [{ entry with tokenCount := appendTokenCount tk entry.content }])) ∧
    LoadHistory (.valid (prior ++ [{ entry with tokenCount := appendTokenCount tk entry.content }])) =
      .ok (prior ++ [{ entry with tokenCount := appendTokenCount tk entry.content }]) ∧
    (prior ++ [{ entry with tokenCount := appendTokenCount tk entry.content }]).getLast? =
      some { entry with tokenCount := appendTokenCount tk entry.content } := by
  refine ⟨?_, rfl, ?_⟩
  · simp [AppendHistory, hload]
  · exact List.getLast?_concat _

/-- Witness for C7 on a concrete one-entry file. -/
theorem appendHistory_roundTrip_witness :
    AppendHistory demoTiktoken (⟨"assistant", "bb", 0⟩ : HistoryEntry)
      (HistFile.valid [⟨"user", "a", 1⟩]) =
      .ok (.valid ([⟨"user", "a", 1⟩] ++
        [{ (⟨"assistant", "bb", 0⟩ : HistoryEntry) with
            tokenCount := appendTokenCount demoTiktoken "bb" }])) ∧
    LoadHistory (.valid ([⟨"user", "a", 1⟩] ++
        [{ (⟨"assistant", "bb", 0⟩ : HistoryEntry) with
            tokenCount := appendTokenCount demoTiktoken "bb" }])) =
      .ok ([⟨"user", "a", 1⟩] ++
        [{ (⟨"assistant", "bb", 0⟩ : HistoryEntry) with
            tokenCount := appendTokenCount demoTiktoken "bb" }]) ∧
    (([⟨"user", "a", 1⟩] : List HistoryEntry) ++
        [{ (⟨"assistant", "bb", 0⟩ : HistoryEntry) with
            tokenCount := appendTokenCount demoTiktoken "bb" }]).getLast? =
      some { (⟨"assistant", "bb", 0⟩ : HistoryEntry) with
          tokenCount := appendTokenCount demoTiktoken "bb" } :=
  appendHistory_roundTrip demoTiktoken (HistFile.valid [⟨"user", "a", 1⟩])
    (⟨"assistant", "bb", 0⟩ : HistoryEntry) [⟨"user", "a", 1⟩] (by decide)

/-- C8 fails on the code: clearing when no history file exists IS an
error — `os.Remove` fails on the absent file and `ClearHistory` wraps
and returns that failure. -/
theorem clearHistory_absent_is_error :
    ClearHistory .absent =
      .error "Failed to clear history: remove: no such file or directory" :=
  rfl

/-- C8 amended: clearing when the file exists removes it, so a
subsequent load returns the empty sequence (loading a nonexistent file is
not an error); but clearing when no file exists returns the wrapped
`os.Remove` error rather than succeeding. -/
theorem clearHistory_spec (entries : List HistoryEntry) :
    ClearHistory (.valid entries) = .ok .absent ∧
    LoadHistory .absent = .ok ([] : List HistoryEntry) ∧
    ClearHistory .absent =
      .error "Failed to clear history: remove: no such file or directory" :=
  ⟨rfl, rfl, rfl⟩

end helpers

/-- Witness for C9 at concrete arguments: two different model names give
the same helpers count. -/
theorem countTokens_model_independent_witness :
    helpers.CountTokens demoTiktoken "hi" "gpt-3.5-turbo" =
      helpers.CountTokens demoTiktoken "hi" "llama" :=
  countTokens_model_independent demoTiktoken "hi" "gpt-3.5-turbo" "llama"

/-- Witness for the amended C8 at a concrete one-entry file. -/
theorem clearHistory_spec_witness :
    helpers.ClearHistory (.valid [⟨"user", "a", 1⟩]) = .ok .absent ∧
    helpers.LoadHistory .absent = .ok ([] : List helpers.HistoryEntry) ∧
    helpers.ClearHistory .absent =
      .error "Failed to clear history: remove: no such file or directory" :=
  helpers.clearHistory_spec [⟨"user", "a", 1⟩]
